import Mathlib

/-!
# colors: request validation and result cache of the prominent-colours service

A shallow embedding of `app/app.go` and `img/image.go`.

* Byte streams (`io.Reader`) are a finite list of bytes still to be delivered,
  followed by the error the reader reports once they are exhausted (`io.EOF`
  on a clean end, any other error otherwise).
* Go pointers that may be nil are `Option`; a write or read through a nil
  pointer is a runtime panic, recorded in the `panicked` flag of a run.
* The collaborators outside this repository (JSON codec, hashstructure,
  HTTP client, base64 decoder, content sniffing, image codec, k-means) are
  the fields of `Env`.
-/

namespace Colors

/-! ## Data model -/

/-- One byte of a stream. -/
abbrev Byte := Nat

/-- Go `error` values, as far as the code tells them apart: `io.EOF` or any
other error with its message. -/
inductive GoError where
  | EOF
  | other (msg : String)
deriving DecidableEq

/-- The method `Error()` of a Go error. -/
def GoError.Error : GoError → String
  | .EOF => "EOF"
  | .other msg => msg

/-- An `io.Reader`: the bytes it still delivers and the error it reports once
they are exhausted. -/
structure Reader where
  data : List Byte
  fin : GoError
deriving DecidableEq

/-- The type `ErrorType` of app.go, a string type. -/
abbrev ErrorType := String

def ErrNone : ErrorType := "no_error"
def ErrSerialization : ErrorType := "serialization_error"
def ErrSizeTooLarge : ErrorType := "size_too_large_error"
def ErrUnknownDataFormat : ErrorType := "unknown_data_format_error"
def ErrOthers : ErrorType := "other_error"

/-- The type `Error` of app.go. -/
structure Error where
  Message : String
  ErrorType : ErrorType
deriving DecidableEq

/-- The type `UploadType` of app.go, a string type. -/
abbrev UploadType := String

def ImgURL : UploadType := "url"
def ImgBase64 : UploadType := "base64"
def ImgUpload : UploadType := "file-upload"

/-- The type `HandleImgRequestBody` of app.go. -/
structure HandleImgRequestBody where
  /-- the field Type of the source -/
  Type_ : UploadType
  Value : String
  ProminentColors : Int
deriving DecidableEq

/-- The type `HandleImgResponseBody` of app.go; a nil slice is the empty list, a nil
`*Error` is `none`. -/
structure HandleImgResponseBody where
  ProminentColors : List String
  Error : Option Error
deriving DecidableEq

/-- The type `prominentcolor.ColorItem`: an RGB colour and its pixel count. -/
structure ColorItem where
  R : Nat
  G : Nat
  B : Nat
  Cnt : Int
deriving DecidableEq

/-- The dynamic types of the values met in the result cache (`interface{}`):
the handler stores a `[]string`, the lookup asserts a
`[]prominentcolor.ColorItem`. -/
inductive CacheValue where
  | strings (v : List String)
  | colorItems (v : List ColorItem)
deriving DecidableEq

/-- The live (unexpired) entries of a go-cache `Cache`. -/
abbrev Cache := List (String × CacheValue)

/-- The method `Cache.Get` of go-cache: the value and whether the key was found. -/
def Cache.Get (c : Cache) (k : String) : Option CacheValue :=
  (c.find? (fun kv => kv.1 == k)).map (fun kv => kv.2)

/-- The method `Cache.Set` of go-cache: replaces any entry of the key. -/
def Cache.Set (c : Cache) (k : String) (v : CacheValue) : Cache :=
  (k, v) :: c.filter (fun kv => !(kv.1 == k))

/-- Whether every value of the cache is a `[]string`, as are all the values
the handler stores. -/
def onlyStrings (c : Cache) : Bool :=
  c.all (fun kv => match kv.2 with
    | .strings _ => true
    | .colorItems _ => false)

/-- The type `App` of app.go; `Cache` is a pointer and may be nil. -/
structure App where
  MaxBodySizeInBytes : Int
  MaxProminentColors : Int
  Cache : Option Cache
  DiskCacheDir : String

/-- Response of `http.Client.Get`, as far as image.go looks at it. -/
structure HttpResponse where
  ContentType : String
  Body : Reader

/-- The collaborators from outside the repository. -/
structure Env where
  /-- decoded images (`image.Image`) -/
  Image : Type
  /-- The call `json.NewDecoder(lr).Decode(handleImgRequestBody)` -/
  jsonDecode : Reader → Except GoError HandleImgRequestBody
  /-- The call `json.Marshal` on a non-nil response -/
  jsonMarshal : HandleImgResponseBody → Except GoError String
  /-- The call `hashstructure.Hash(h, nil)`, a uint64 -/
  Hash : HandleImgRequestBody → Except GoError Nat
  /-- The call `cli.Get(url)` of a client whose transport caches in the directory -/
  httpGet : String → String → Except GoError HttpResponse
  /-- The reader `base64.NewDecoder(base64.StdEncoding, strings.NewReader(data))` -/
  base64Decode : String → Reader
  /-- The function `http.DetectContentType` -/
  DetectContentType : List Byte → String
  /-- The function `image.Decode` -/
  imageDecode : List Byte → Except GoError Image
  /-- The function `prominentcolor.KmeansWithAll` with the arguments image.go fixes -/
  KmeansWithAll : Int → Image → Except GoError (List ColorItem)
  /-- The method `ColorItem.AsString` -/
  AsString : ColorItem → String

/-! ## Library primitives used by the code -/

/-- The int64 value of a mathematical integer under wrap-around. -/
def wrapInt64 (x : Int) : Int :=
  (x + 2 ^ 63) % 2 ^ 64 - 2 ^ 63

/-- The test `strings.HasPrefix(s, "image/")`. -/
def isImageType (s : String) : Bool :=
  "image/".data.isPrefixOf s.data

/-- The reader `io.LimitReader(r, n)`. -/
def LimitReader (r : Reader) (n : Int) : Reader :=
  if n ≤ 0 then ⟨[], .EOF⟩
  else if n.toNat ≤ r.data.length then ⟨r.data.take n.toNat, .EOF⟩
  else r

/-- The call `io.CopyN(dst, src, n)`: the bytes written to dst, the reader afterwards
and the error. For n ≤ 0 nothing is read and the error is nil; otherwise the
error is nil exactly when n bytes were written, and is the error of the reader itself
when it ran out before. -/
def CopyN (src : Reader) (n : Int) : List Byte × Reader × Option GoError :=
  if n ≤ 0 then ([], src, none)
  else
    let got := src.data.take n.toNat
    let rest : Reader := { src with data := src.data.drop n.toNat }
    if got.length = n.toNat then (got, rest, none) else (got, rest, some src.fin)

/-- The conversion `int(uid)` for a uint64. -/
def intOfUint64 (uid : Nat) : Int :=
  if uid % 2 ^ 64 < 2 ^ 63 then ((uid % 2 ^ 64 : Nat) : Int)
  else ((uid % 2 ^ 64 : Nat) : Int) - 2 ^ 64

/-- The text `strconv.Itoa(int(uid))`, the cache key of a fingerprint. -/
def cacheKey (uid : Nat) : String :=
  toString (intOfUint64 uid)

/-! ## img/image.go -/

/-- The function `TopColors`: the hex strings of the colours, in their order. -/
def TopColors (env : Env) (prominentColors : List ColorItem) : List String :=
  prominentColors.map env.AsString

/-- The function `GetProminentColorsFromReader`, reading the buffered bytes. -/
def GetProminentColorsFromReader (env : Env) (r : List Byte) (n : Int) :
    Except GoError (List ColorItem) :=
  match env.imageDecode r with
  | .error err => .error err
  | .ok img =>
    match env.KmeansWithAll n img with
    | .error err => .error err
    | .ok centroids => .ok centroids

/-- The function `GetReaderFromBase64Data`: never fails. -/
def GetReaderFromBase64Data (env : Env) (data : String) : Except GoError Reader :=
  .ok (env.base64Decode data)

/-- The function `GetReaderFromURL`; the body returned next to a non-nil error is dropped,
the caller never touches it. -/
def GetReaderFromURL (env : Env) (url : String) (cacheDir : String) : Except GoError Reader :=
  match env.httpGet url cacheDir with
  | .error err => .error err
  | .ok resp =>
    if resp.ContentType ≠ "" ∧ ¬ isImageType resp.ContentType = true then
      .error (.other (resp.ContentType ++ " may not be an image"))
    else .ok resp.Body

/-! ## app/app.go -/

/-- The function `CreateAppError`. -/
def CreateAppError (err : GoError) (typ : ErrorType) : Error :=
  { Message := err.Error, ErrorType := typ }

/-- The constant `headerBufLen` of FindProminentColors. -/
def headerBufLen : Int := 512

/-- The text of `maxRequestBodySize>>20` under `%d`. -/
def mbText (maxRequestBodySize : Int) : String :=
  toString (maxRequestBodySize / 2 ^ 20)

/-- Lines 172-190 of app.go, the reads of FindProminentColors on the opened
stream: the 512-byte sniff read, the content sniff, the remainder read and
the one-byte probe. Gives the buffer handed on or the typed failure, and the
reader as the reads leave it. The error of the remainder read is non-nil and
not io.EOF exactly when it is `some (.other msg)`. -/
def readImage (env : Env) (maxRequestBodySize : Int) (imgReader : Reader) :
    Except (ErrorType × GoError) (List Byte) × Reader :=
  let c1 := CopyN imgReader headerBufLen
  match c1.2.2 with
  | some err => (.error (ErrOthers, err), c1.2.1)
  | none =>
    let detectContentType := env.DetectContentType c1.1
    if ¬ isImageType detectContentType = true then
      (.error (ErrUnknownDataFormat, .other (detectContentType ++ " may not be image")), c1.2.1)
    else
      let c2 := CopyN c1.2.1 (wrapInt64 (maxRequestBodySize - headerBufLen))
      match c2.2.2 with
      | some (.other msg) =>
        (.error (ErrSizeTooLarge, .other (msg ++ " " ++ mbText maxRequestBodySize
          ++ "mb is the limit of the acceptable image size")), c2.2.1)
      | _ =>
        let c3 := CopyN c2.2.1 1
        match c3.2.2 with
        | none =>
          (.error (ErrSizeTooLarge, .other
            (mbText maxRequestBodySize ++ "mb is the limit of the acceptable image size")), c3.2.1)
        | some _ => (.ok (c1.1 ++ c2.1), c3.2.1)

/-- Lines 157-170 of app.go, the switch on the upload type that opens the
image stream; every failure has the type ErrOthers. -/
def openReader (env : Env) (h : HandleImgRequestBody) (cacheDir : String) :
    Except (ErrorType × GoError) Reader :=
  if h.Type_ = ImgURL then
    match GetReaderFromURL env h.Value cacheDir with
    | .error err => .error (ErrOthers, err)
    | .ok r => .ok r
  else if h.Type_ = ImgBase64 then
    match GetReaderFromBase64Data env h.Value with
    | .error err => .error (ErrOthers, err)
    | .ok r => .ok r
  else
    .error (ErrOthers, .other
      ("requested type " ++ h.Type_ ++ " is not implemented for http requests"))

/-- The closure of FindProminentColors (lines 155-198): colours, error type
and error. -/
def findClosure (env : Env) (h : HandleImgRequestBody) (maxRequestBodySize : Int)
    (cacheDir : String) : List String × ErrorType × Option GoError :=
  match openReader env h cacheDir with
  | .error (typ, err) => ([], typ, some err)
  | .ok imgReader =>
    match (readImage env maxRequestBodySize imgReader).1 with
    | .error (typ, err) => ([], typ, some err)
    | .ok bufr =>
      match GetProminentColorsFromReader env bufr h.ProminentColors with
      | .error err => ([], ErrOthers, some err)
      | .ok prominentColors => (TopColors env prominentColors, ErrNone, none)

/-- The number of bytes the reads of FindProminentColors take from a stream. -/
def bytesConsumed (env : Env) (maxRequestBodySize : Int) (imgReader : Reader) : Nat :=
  imgReader.data.length - (readImage env maxRequestBodySize imgReader).2.data.length

/-- The method `FindProminentColors`: always a non-nil response. -/
def FindProminentColors (env : Env) (h : HandleImgRequestBody) (maxRequestBodySize : Int)
    (cacheDir : String) : HandleImgResponseBody :=
  match findClosure env h maxRequestBodySize cacheDir with
  | (_, errTyp, some err) => { ProminentColors := [], Error := some (CreateAppError err errTyp) }
  | (colors, _, none) => { ProminentColors := colors, Error := none }

/-- Calls on the `http.ResponseWriter`, in order. -/
inductive WEvent where
  | HeaderSet (key : String) (value : String)
  | WriteHeader (code : Nat)
  | Write (body : String)
deriving DecidableEq

def StatusOK : Nat := 200
def StatusInternalServerError : Nat := 500

/-- What one call of the handler did. -/
structure HandlerRun where
  /-- the calls on the response writer -/
  w : List WEvent
  /-- the cache after the call -/
  cache : Option Cache
  /-- the calls of `Cache.Set`: key and value -/
  sets : List (String × CacheValue)
  /-- the number of calls of `FindProminentColors` -/
  findCalls : Nat
  /-- whether the call ended in a runtime panic -/
  panicked : Bool
deriving DecidableEq

/-- The call `json.Marshal(response)` for the pointer `response`: a nil pointer
marshals to `null` without error. -/
def jsonMarshalPtr (env : Env) (response : Option HandleImgResponseBody) :
    Except GoError String :=
  match response with
  | none => .ok "null"
  | some resp => env.jsonMarshal resp

/-- The assignment `response.Error = e` through the pointer `response`; `none` is the nil
dereference. -/
def assignError (response : Option HandleImgResponseBody) (e : Error) :
    Option HandleImgResponseBody :=
  match response with
  | none => none
  | some resp => some { resp with Error := some e }

/-- The assignment `response.ProminentColors = cs` through the pointer `response`; `none` is
the nil dereference. -/
def assignProminentColors (response : Option HandleImgResponseBody) (cs : List String) :
    Option HandleImgResponseBody :=
  match response with
  | none => none
  | some resp => some { resp with ProminentColors := cs }

/-- The deferred function of lines 67-84, which writes the response: the
calls on the writer and whether it panicked. -/
def deferredWrite (env : Env) (response : Option HandleImgResponseBody) : List WEvent × Bool :=
  match jsonMarshalPtr env response with
  | .error err =>
    ([.WriteHeader StatusInternalServerError, .Write ("error: " ++ err.Error)], false)
  | .ok responseBytes =>
    match response with
    | none => ([], true)
    | some resp =>
      if resp.Error ≠ none then
        ([.WriteHeader StatusInternalServerError, .Write responseBytes], false)
      else
        ([.HeaderSet "Access-Control-Allow-Origin" "*",
          .HeaderSet "Content-Type" "application/json",
          .WriteHeader StatusOK, .Write responseBytes], false)

/-- The deferred function of lines 110-120, which stores the result: the
cache afterwards, the `Cache.Set` call it made and whether it panicked. -/
def deferredStore (env : Env) (cache : Option Cache) (inCache : Bool)
    (handleImgRequestBody : HandleImgRequestBody) (response : Option HandleImgResponseBody) :
    Option Cache × List (String × CacheValue) × Bool :=
  if inCache then (cache, [], false)
  else
    match env.Hash handleImgRequestBody with
    | .error _ => (cache, [], false)
    | .ok uid =>
      match response with
      | none => (cache, [], true)
      | some resp =>
        if resp.Error = none ∧ resp.ProminentColors.length > 0 then
          match cache with
          | none => (none, [(cacheKey uid, .strings resp.ProminentColors)], true)
          | some c =>
            (some (c.Set (cacheKey uid) (.strings resp.ProminentColors)),
              [(cacheKey uid, .strings resp.ProminentColors)], false)
        else (cache, [], false)

/-- Lines 104-106: the requested count after normalisation. -/
def normalizeCount (a : App) (h : HandleImgRequestBody) : HandleImgRequestBody :=
  if h.ProminentColors = 0 ∨ h.ProminentColors > a.MaxProminentColors then
    { h with ProminentColors := a.MaxProminentColors }
  else h

/-- The type assertion `cachedData.([]prominentcolor.ColorItem)` with its ok
flag; a nil interface (key not found) and a `[]string` both give false. -/
def assertColorItems (cachedData : Option CacheValue) : List ColorItem × Bool :=
  match cachedData with
  | some (.colorItems v) => (v, true)
  | _ => ([], false)

/-- Lines 122-134, the cache lookup and the computation: the pointer
`response` at the end, the number of calls of FindProminentColors and whether
the lines panicked. -/
def lookupOrFind (env : Env) (a : App) (handleImgRequestBody : HandleImgRequestBody)
    (response : Option HandleImgResponseBody) : Option HandleImgResponseBody × Nat × Bool :=
  let compute : Option HandleImgResponseBody × Nat × Bool :=
    (some (FindProminentColors env handleImgRequestBody a.MaxBodySizeInBytes a.DiskCacheDir),
      1, false)
  match env.Hash handleImgRequestBody with
  | .error _ => compute
  | .ok h =>
    match a.Cache with
    | none => (response, 0, true)
    | some c =>
      let cachedData := c.Get (cacheKey h)
      let inCache := cachedData.isSome
      let asserted := assertColorItems cachedData
      if inCache = true ∧ asserted.2 = true ∧ asserted.1.length > 0 then
        match assignProminentColors response (TopColors env asserted.1) with
        | none => (response, 0, true)
        | some resp => (some resp, 0, false)
      else compute

/-- The method `App.ProminentColorsFinderHandler` on a request body. The variable
`response` starts as a nil pointer (line 65) and the outer `inCache` stays
false (line 108; line 125 declares a new one). When the body panics the
deferred functions registered so far still run, last registered first. -/
def ProminentColorsFinderHandler (env : Env) (a : App) (body : Reader) : HandlerRun :=
  let response : Option HandleImgResponseBody := none
  let lr := LimitReader body a.MaxBodySizeInBytes
  match env.jsonDecode lr with
  | .error err =>
    match assignError response (CreateAppError (.other
        ("could not decode request body, failed with \x27" ++ err.Error ++ "\x27"))
        ErrSerialization) with
    | none =>
      let wr := deferredWrite env response
      { w := wr.1, cache := a.Cache, sets := [], findCalls := 0, panicked := true }
    | some resp =>
      let wr := deferredWrite env (some resp)
      { w := wr.1, cache := a.Cache, sets := [], findCalls := 0, panicked := wr.2 }
  | .ok decoded =>
    let handleImgRequestBody := normalizeCount a decoded
    let inCache := false
    let found := lookupOrFind env a handleImgRequestBody response
    let st := deferredStore env a.Cache inCache handleImgRequestBody found.1
    let wr := deferredWrite env found.1
    { w := wr.1, cache := st.1, sets := st.2.1, findCalls := found.2.1,
      panicked := found.2.2 || st.2.2 || wr.2 }

/-! ## A concrete environment

Stand-ins for the collaborators, used to run the definitions on concrete
requests. -/

/-- The PNG signature. -/
def pngSignature : List Byte := [0x89, 0x50, 0x4E, 0x47, 0x0D, 0x0A, 0x1A, 0x0A]

/-- The PNG rule of `http.DetectContentType` and its fallback for data that
matches no signature and is not text. -/
def sniffPng (data : List Byte) : String :=
  if pngSignature.isPrefixOf data then "image/png" else "application/octet-stream"

/-- A stream of n bytes that starts with the PNG signature. -/
def pngStream (n : Nat) : Reader :=
  { data := pngSignature ++ List.replicate (n - 8) 0, fin := .EOF }

/-- A stream of n zero bytes. -/
def zeroStream (n : Nat) : Reader :=
  { data := List.replicate n 0, fin := .EOF }

/-- The bytes of an ASCII text. -/
def bytesOf (s : String) : List Byte :=
  s.data.map Char.toNat

/-- A request body: a URL request for three colours. -/
def sampleBody : Reader :=
  { data := bytesOf
      "\x7b\"type\":\"url\",\"value\":\"http://example/a.png\",\"num_prominent_colors\":3\x7d",
    fin := .EOF }

/-- The request `sampleBody` decodes to. -/
def sampleRequest : HandleImgRequestBody :=
  { Type_ := "url", Value := "http://example/a.png", ProminentColors := 3 }

/-- A truncated request body: the single byte of an opening brace. -/
def truncatedBody : Reader :=
  { data := [123], fin := .EOF }

/-- Two hex digits of a colour channel. -/
def hex2 (n : Nat) : String :=
  String.mk [Nat.digitChar (n / 16 % 16), Nat.digitChar (n % 16)]

/-- A stand-in serialisation of a response. -/
def sampleMarshal (resp : HandleImgResponseBody) : String :=
  "colors=" ++ String.intercalate "," resp.ProminentColors ++ ";error=" ++
    (match resp.Error with
      | none => "null"
      | some e => e.ErrorType ++ ":" ++ e.Message)

/-- The concrete environment: it decodes `sampleBody` only, serves a 600-byte
PNG at http://example/a.png, 600 zero bytes at http://example/zero.bin and a
600-byte PNG without Content-Type at http://example/b and a 512-byte one at
http://example/c, decodes the base64 of the PNG signature, and finds the single colour red in every image. -/
def sampleEnv : Env :=
  { Image := List Byte
    jsonDecode := fun r =>
      if r = sampleBody then .ok sampleRequest else .error (.other "unexpected EOF")
    jsonMarshal := fun resp => .ok (sampleMarshal resp)
    Hash := fun h =>
      .ok ((h.Type_.length + 31 * h.Value.length + 961 * (h.ProminentColors % 2 ^ 64).toNat)
        % 2 ^ 64)
    httpGet := fun url _ =>
      if url = "http://example/a.png" then .ok { ContentType := "image/png", Body := pngStream 600 }
      else if url = "http://example/zero.bin" then .ok { ContentType := "", Body := zeroStream 600 }
      else if url = "http://example/b" then .ok { ContentType := "", Body := pngStream 600 }
      else if url = "http://example/c" then .ok { ContentType := "", Body := pngStream 512 }
      else .error (.other "no such host")
    base64Decode := fun data =>
      if data = "iVBORw0KGgo=" then { data := pngSignature, fin := .EOF }
      else { data := [], fin := .other "illegal base64 data at input byte 0" }
    DetectContentType := sniffPng
    imageDecode := fun data =>
      if pngSignature.isPrefixOf data then .ok data else .error (.other "image: unknown format")
    KmeansWithAll := fun _ _ => .ok [{ R := 255, G := 0, B := 0, Cnt := 100 }]
    AsString := fun c => hex2 c.R ++ hex2 c.G ++ hex2 c.B }

/-- The configuration of main.go with its defaults and an empty cache. -/
def sampleApp : App :=
  { MaxBodySizeInBytes := 1048576, MaxProminentColors := 5, Cache := some [],
    DiskCacheDir := "./cache" }

/-- The configuration of TestProminentColorsFinderHandler: a nil cache. -/
def testApp : App :=
  { MaxBodySizeInBytes := 1048576, MaxProminentColors := 5, Cache := none,
    DiskCacheDir := "../cache" }

/-! ## The bounded reads -/

theorem CopyN_eq (src : Reader) (n : Int) :
    CopyN src n = (src.data.take n.toNat, { src with data := src.data.drop n.toNat },
      if n.toNat ≤ src.data.length then none else some src.fin) := by
  unfold CopyN
  by_cases hn : n ≤ 0
  · have h0 : n.toNat = 0 := Int.toNat_eq_zero.mpr hn
    simp [hn, h0]
  · by_cases hl : n.toNat ≤ src.data.length
    · simp [hn, hl]
    · have hlt : src.data.length < n.toNat := Nat.lt_of_not_le hl
      have hne : ¬ src.data.length = n.toNat := by omega
      simp [hn, hl, List.length_take, Nat.min_def, hne]

theorem wrapInt64_of_range (x : Int) (h0 : -2 ^ 63 ≤ x) (h1 : x < 2 ^ 63) : wrapInt64 x = x := by
  unfold wrapInt64
  omega

theorem wrapInt64_le (x : Int) (h0 : 0 ≤ x) : wrapInt64 x ≤ x := by
  unfold wrapInt64
  omega


/-- The reader after the reads is the stream advanced by some number of
bytes, at most 512 for the sniff read, the wrapped remainder count and one
for the probe. -/
theorem readImage_rest (env : Env) (M : Int) (r : Reader) :
    ∃ k : Nat, k ≤ 512 + (wrapInt64 (M - headerBufLen)).toNat + 1 ∧
      (readImage env M r).2 = { r with data := r.data.drop k } := by
  have h512 : headerBufLen.toNat = 512 := by decide
  unfold readImage
  simp only [CopyN_eq]
  split
  · exact ⟨512, by omega, by simp [h512]⟩
  · split
    · exact ⟨512, by omega, by simp [h512]⟩
    · split
      · exact ⟨512 + (wrapInt64 (M - headerBufLen)).toNat, by omega,
          by simp [h512, List.drop_drop, Nat.add_comm]⟩
      · split <;> exact ⟨512 + (wrapInt64 (M - headerBufLen)).toNat + 1, le_refl _,
          by simp [h512, List.drop_drop, Nat.add_comm, Nat.add_left_comm]⟩

theorem readImage_short (env : Env) (M : Int) (r : Reader) (hL : r.data.length < 512) :
    (readImage env M r).1 = .error (ErrOthers, r.fin) := by
  have h512 : headerBufLen.toNat = 512 := by decide
  have h1 : ¬ 512 ≤ r.data.length := by omega
  unfold readImage
  simp [CopyN_eq, h512, h1]

theorem readImage_notImage (env : Env) (M : Int) (r : Reader) (hL : 512 ≤ r.data.length)
    (himg : isImageType (env.DetectContentType (r.data.take 512)) = false) :
    (readImage env M r).1 = .error (ErrUnknownDataFormat,
      .other (env.DetectContentType (r.data.take 512) ++ " may not be image")) := by
  have h512 : headerBufLen.toNat = 512 := by decide
  unfold readImage
  simp [CopyN_eq, h512, hL, himg]

theorem readImage_fits (env : Env) (M : Int) (r : Reader) (hL : 512 ≤ r.data.length)
    (hM : (r.data.length : Int) ≤ M) (hM64 : M < 2 ^ 63) (hfin : r.fin = .EOF)
    (himg : isImageType (env.DetectContentType (r.data.take 512)) = true) :
    (readImage env M r).1 = .ok r.data := by
  have h512 : headerBufLen.toNat = 512 := by decide
  have hw : wrapInt64 (M - headerBufLen) = M - 512 := by
    have : headerBufLen = 512 := rfl
    rw [this]
    apply wrapInt64_of_range <;> omega
  have hn : r.data.length - 512 ≤ (M - 512).toNat := by omega
  have h3 : ¬ 1 ≤ r.data.length - (512 + (M - 512).toNat) := by omega
  have htake : List.take (M - 512).toNat (List.drop 512 r.data) = List.drop 512 r.data :=
    List.take_of_length_le (by simp; omega)
  unfold readImage
  simp only [CopyN_eq, h512, hw]
  by_cases h2 : (M - 512).toNat ≤ (List.drop 512 r.data).length
  · simp [hL, himg, h2, h3, hfin, htake, List.drop_drop]
  · simp [hL, himg, h2, h3, hfin, htake, List.drop_drop]

theorem readImage_oversize (env : Env) (M : Int) (r : Reader) (h512M : 512 ≤ M)
    (hM : M < (r.data.length : Int)) (hM64 : M < 2 ^ 63)
    (himg : isImageType (env.DetectContentType (r.data.take 512)) = true) :
    (readImage env M r).1 = .error (ErrSizeTooLarge,
      .other (mbText M ++ "mb is the limit of the acceptable image size")) := by
  have h512 : headerBufLen.toNat = 512 := by decide
  have hw : wrapInt64 (M - headerBufLen) = M - 512 := by
    have : headerBufLen = 512 := rfl
    rw [this]
    apply wrapInt64_of_range <;> omega
  have hL : 512 ≤ r.data.length := by omega
  have h2 : (M - 512).toNat ≤ (List.drop 512 r.data).length := by simp; omega
  have h3 : 1 ≤ r.data.length - (512 + (M - 512).toNat) := by omega
  have h4 : M ≤ (r.data.length : Int) := by omega
  unfold readImage
  simp only [CopyN_eq, h512, hw]
  simp [hL, himg, h2, h3, h4, List.drop_drop]

/-! ## FindProminentColors on an opened stream -/

theorem FindProminentColors_read_error (env : Env) (h : HandleImgRequestBody) (M : Int)
    (dir : String) (r : Reader) (typ : ErrorType) (err : GoError)
    (hopen : openReader env h dir = .ok r)
    (hread : (readImage env M r).1 = .error (typ, err)) :
    FindProminentColors env h M dir =
      { ProminentColors := [], Error := some { Message := err.Error, ErrorType := typ } } := by
  simp [FindProminentColors, findClosure, hopen, hread, CreateAppError]

theorem FindProminentColors_read_ok (env : Env) (h : HandleImgRequestBody) (M : Int)
    (dir : String) (r : Reader) (bufr : List Byte)
    (hopen : openReader env h dir = .ok r)
    (hread : (readImage env M r).1 = .ok bufr) :
    FindProminentColors env h M dir =
      (match GetProminentColorsFromReader env bufr h.ProminentColors with
        | .error err =>
          { ProminentColors := [], Error := some { Message := err.Error, ErrorType := ErrOthers } }
        | .ok prominentColors =>
          { ProminentColors := TopColors env prominentColors, Error := none }) := by
  simp only [FindProminentColors, findClosure, hopen, hread]
  cases GetProminentColorsFromReader env bufr h.ProminentColors <;> simp [CreateAppError]

/-- C3 (the code departs from the claim): whatever its bytes sniff as, a stream
shorter than 512 bytes fails on the first read. FindProminentColors answers
with the error of the end of the stream (EOF for a clean end) under the type
other_error and without colours; the bytes are neither sniffed nor handed to
the colour extractor. -/
theorem short_stream_fails_first_read (env : Env) (h : HandleImgRequestBody) (M : Int)
    (dir : String) (r : Reader)
    (hopen : openReader env h dir = .ok r) (hL : r.data.length < 512) :
    FindProminentColors env h M dir =
      { ProminentColors := [], Error := some { Message := r.fin.Error, ErrorType := ErrOthers } } :=
  FindProminentColors_read_error env h M dir r ErrOthers r.fin hopen (readImage_short env M r hL)

set_option maxRecDepth 100000 in
/-- C3, at a concrete request: the base64 of the eight bytes of the PNG
signature, which sniff as image/png, is answered with other_error EOF. -/
theorem short_stream_fails_first_read_witness :
    isImageType (sampleEnv.DetectContentType pngSignature) = true ∧
    FindProminentColors sampleEnv
        { Type_ := "base64", Value := "iVBORw0KGgo=", ProminentColors := 3 } 1048576 "./cache" =
      { ProminentColors := [], Error := some { Message := "EOF", ErrorType := "other_error" } } :=
  ⟨by decide,
   short_stream_fails_first_read sampleEnv
     { Type_ := "base64", Value := "iVBORw0KGgo=", ProminentColors := 3 } 1048576 "./cache"
     { data := pngSignature, fin := .EOF } (by rfl) (by decide)⟩

/-- C4 (amended): for a maximum M of at least 512 and a resolved stream longer
than M, FindProminentColors returns size_too_large_error without colours when
the first 512 bytes sniff as an image type, and unknown_data_format_error
without colours when they do not: the sniff comes before the size check. -/
theorem oversize_stream_rejected (env : Env) (h : HandleImgRequestBody) (M : Int)
    (dir : String) (r : Reader)
    (hopen : openReader env h dir = .ok r)
    (h512 : 512 ≤ M) (hM64 : M < 2 ^ 63) (hM : M < (r.data.length : Int)) :
    (isImageType (env.DetectContentType (r.data.take 512)) = true →
      FindProminentColors env h M dir =
        { ProminentColors := [],
          Error := some { Message := mbText M ++ "mb is the limit of the acceptable image size",
                          ErrorType := ErrSizeTooLarge } }) ∧
    (isImageType (env.DetectContentType (r.data.take 512)) = false →
      FindProminentColors env h M dir =
        { ProminentColors := [],
          Error := some { Message := env.DetectContentType (r.data.take 512) ++ " may not be image",
                          ErrorType := ErrUnknownDataFormat } }) :=
  ⟨fun himg => FindProminentColors_read_error env h M dir r _ _ hopen
      (readImage_oversize env M r h512 hM hM64 himg),
   fun himg => FindProminentColors_read_error env h M dir r _ _ hopen
      (readImage_notImage env M r (by omega) himg)⟩

set_option maxRecDepth 100000 in
/-- C4 (amended), at a concrete request: a 600-byte PNG stream against a
maximum of 599 bytes is answered with size_too_large_error. -/
theorem oversize_stream_rejected_witness :
    FindProminentColors sampleEnv
        { Type_ := "url", Value := "http://example/b", ProminentColors := 3 } 599 "./cache" =
      { ProminentColors := [],
        Error := some { Message := "0mb is the limit of the acceptable image size",
                        ErrorType := "size_too_large_error" } } :=
  (oversize_stream_rejected sampleEnv
    { Type_ := "url", Value := "http://example/b", ProminentColors := 3 } 599 "./cache"
    (pngStream 600) (by rfl) (by decide) (by decide) (by decide)).1 (by decide)

set_option maxRecDepth 100000 in
/-- C4 as stated fails: 600 zero bytes against a maximum of 512 are answered
with unknown_data_format_error, not size_too_large_error; and a 512-byte PNG
stream against a maximum of 100 is accepted. -/
theorem oversize_stream_other_answers :
    (512 : Int) < ((zeroStream 600).data.length : Int) ∧
    openReader sampleEnv { Type_ := "url", Value := "http://example/zero.bin", ProminentColors := 3 }
      "./cache" = .ok (zeroStream 600) ∧
    FindProminentColors sampleEnv
        { Type_ := "url", Value := "http://example/zero.bin", ProminentColors := 3 } 512 "./cache" =
      { ProminentColors := [],
        Error := some { Message := "application/octet-stream may not be image",
                        ErrorType := "unknown_data_format_error" } } ∧
    (100 : Int) < ((pngStream 512).data.length : Int) ∧
    openReader sampleEnv { Type_ := "url", Value := "http://example/c", ProminentColors := 3 }
      "./cache" = .ok (pngStream 512) ∧
    FindProminentColors sampleEnv
        { Type_ := "url", Value := "http://example/c", ProminentColors := 3 } 100 "./cache" =
      { ProminentColors := ["ff0000"], Error := none } := by
  refine ⟨by decide, by rfl, by rfl, by decide, by rfl, by rfl⟩

/-- C9 (amended): for every stream and every maximum M of at least 512, the
reads of FindProminentColors take at most M+1 bytes from the stream, whatever
outcome they return, and leave the reader advanced by exactly that many
bytes. -/
theorem bounded_read (env : Env) (M : Int) (r : Reader) (h512 : 512 ≤ M) :
    (bytesConsumed env M r : Int) ≤ M + 1 ∧
    (readImage env M r).2 = { r with data := r.data.drop (bytesConsumed env M r) } := by
  obtain ⟨k, hk, hrest⟩ := readImage_rest env M r
  have hw : wrapInt64 (M - headerBufLen) ≤ M - 512 := by
    have : headerBufLen = 512 := rfl
    rw [this]
    exact wrapInt64_le (M - 512) (by omega)
  have hcons : bytesConsumed env M r = r.data.length - (r.data.length - k) := by
    simp [bytesConsumed, hrest]
  constructor
  · rw [hcons]
    omega
  · rw [hrest, hcons]
    by_cases hkl : k ≤ r.data.length
    · have : r.data.length - (r.data.length - k) = k := by omega
      rw [this]
    · have h1 : r.data.length - (r.data.length - k) = r.data.length := by omega
      rw [h1, List.drop_of_length_le (by omega), List.drop_of_length_le (le_refl _)]

set_option maxRecDepth 100000 in
/-- C9 (amended), at a concrete stream: of a 600-byte PNG stream and a maximum
of 512 bytes, 513 bytes are taken. -/
theorem bounded_read_witness :
    bytesConsumed sampleEnv 512 (pngStream 600) = 513 ∧
    (bytesConsumed sampleEnv 512 (pngStream 600) : Int) ≤ 512 + 1 :=
  ⟨by rfl, (bounded_read sampleEnv 512 (pngStream 600) (by decide)).1⟩

set_option maxRecDepth 100000 in
/-- C9 as stated fails for a maximum below 512: with M = 100 the reads take
513 bytes of a 600-byte PNG stream, more than M+1 = 101. -/
theorem bounded_read_small_max :
    bytesConsumed sampleEnv 100 (pngStream 600) = 513 ∧
    ¬ ((bytesConsumed sampleEnv 100 (pngStream 600) : Int) ≤ 100 + 1) := by
  have h : bytesConsumed sampleEnv 100 (pngStream 600) = 513 := by rfl
  refine ⟨h, ?_⟩
  rw [h]
  decide

/-- C10: for a resolved stream of length L ≥ 512 and an int64 maximum M.
(1) If the stream ends cleanly, L ≤ M and the first 512 bytes sniff as an
image type, the reads raise no error and the buffer handed to the colour
extractor is the whole stream, so the response is the answer of the extractor on
the whole stream with the requested count. (2) If M ≥ 512, L = M+1 and the
first 512 bytes sniff as an image type, the response is size_too_large_error.
(3) If the first 512 bytes do not sniff as an image type, the response is
unknown_data_format_error with the detected type in the message. -/
theorem size_boundary (env : Env) (h : HandleImgRequestBody) (M : Int) (dir : String)
    (r : Reader) (hopen : openReader env h dir = .ok r) (hM64 : M < 2 ^ 63)
    (hL : 512 ≤ r.data.length) :
    (r.fin = .EOF → (r.data.length : Int) ≤ M →
      isImageType (env.DetectContentType (r.data.take 512)) = true →
        (readImage env M r).1 = .ok r.data ∧
        FindProminentColors env h M dir =
          (match GetProminentColorsFromReader env r.data h.ProminentColors with
            | .error err =>
              { ProminentColors := [],
                Error := some { Message := err.Error, ErrorType := ErrOthers } }
            | .ok prominentColors =>
              { ProminentColors := TopColors env prominentColors, Error := none })) ∧
    (512 ≤ M → (r.data.length : Int) = M + 1 →
      isImageType (env.DetectContentType (r.data.take 512)) = true →
        FindProminentColors env h M dir =
          { ProminentColors := [],
            Error := some { Message := mbText M ++ "mb is the limit of the acceptable image size",
                            ErrorType := ErrSizeTooLarge } }) ∧
    (isImageType (env.DetectContentType (r.data.take 512)) = false →
      FindProminentColors env h M dir =
        { ProminentColors := [],
          Error := some { Message := env.DetectContentType (r.data.take 512) ++ " may not be image",
                          ErrorType := ErrUnknownDataFormat } }) := by
  refine ⟨fun hfin hM himg => ?_, fun h512 hM himg => ?_, fun himg => ?_⟩
  · have hread := readImage_fits env M r hL hM hM64 hfin himg
    exact ⟨hread, FindProminentColors_read_ok env h M dir r r.data hopen hread⟩
  · exact FindProminentColors_read_error env h M dir r _ _ hopen
      (readImage_oversize env M r h512 (by omega) hM64 himg)
  · exact FindProminentColors_read_error env h M dir r _ _ hopen
      (readImage_notImage env M r hL himg)

set_option maxRecDepth 100000 in
/-- C10, at concrete requests: a 600-byte PNG stream against a maximum of 600
is handed on whole and gives the colour; against a maximum of 599 it is
size_too_large_error; 600 zero bytes are unknown_data_format_error. -/
theorem size_boundary_witness :
    ((readImage sampleEnv 600 (pngStream 600)).1 = .ok (pngStream 600).data ∧
      FindProminentColors sampleEnv
          { Type_ := "url", Value := "http://example/b", ProminentColors := 3 } 600 "./cache" =
        { ProminentColors := ["ff0000"], Error := none }) ∧
    FindProminentColors sampleEnv
        { Type_ := "url", Value := "http://example/b", ProminentColors := 3 } 599 "./cache" =
      { ProminentColors := [],
        Error := some { Message := "0mb is the limit of the acceptable image size",
                        ErrorType := "size_too_large_error" } } ∧
    FindProminentColors sampleEnv
        { Type_ := "url", Value := "http://example/zero.bin", ProminentColors := 3 } 600 "./cache" =
      { ProminentColors := [],
        Error := some { Message := "application/octet-stream may not be image",
                        ErrorType := "unknown_data_format_error" } } :=
  ⟨(size_boundary sampleEnv { Type_ := "url", Value := "http://example/b", ProminentColors := 3 }
      600 "./cache" (pngStream 600) (by rfl) (by decide) (by decide)).1
      (by rfl) (by decide) (by decide),
   (size_boundary sampleEnv { Type_ := "url", Value := "http://example/b", ProminentColors := 3 }
      599 "./cache" (pngStream 600) (by rfl) (by decide) (by decide)).2.1
      (by decide) (by decide) (by decide),
   (size_boundary sampleEnv
      { Type_ := "url", Value := "http://example/zero.bin", ProminentColors := 3 }
      600 "./cache" (zeroStream 600) (by rfl) (by decide) (by decide)).2.2 (by decide)⟩

/-! ## The handler -/

theorem Cache.Get_Set (c : Cache) (k : String) (v : CacheValue) :
    (c.Set k v).Get k = some v := by
  simp [Cache.Get, Cache.Set]

theorem onlyStrings_Set (c : Cache) (k : String) (xs : List String)
    (hc : onlyStrings c = true) : onlyStrings (c.Set k (.strings xs)) = true := by
  simp only [onlyStrings, Cache.Set, List.all_cons, List.all_eq_true, Bool.and_eq_true,
    List.mem_filter] at *
  exact ⟨trivial, fun kv hkv => hc kv hkv.1⟩

theorem assertColorItems_of_onlyStrings (c : Cache) (k : String) (hc : onlyStrings c = true) :
    (assertColorItems (c.Get k)).2 = false := by
  unfold Cache.Get
  cases hfind : c.find? (fun kv => kv.1 == k) with
  | none => simp [assertColorItems]
  | some kv =>
    have hmem : kv ∈ c := List.mem_of_find?_eq_some hfind
    have hkv := (List.all_eq_true.mp hc) kv hmem
    cases hv : kv.2 with
    | strings v => simp [assertColorItems, hv]
    | colorItems v => simp [hv] at hkv

theorem lookupOrFind_nil_response (env : Env) (a : App) (h : HandleImgRequestBody) :
    lookupOrFind env a h none = (none, 0, true) ∨
    lookupOrFind env a h none =
      (some (FindProminentColors env h a.MaxBodySizeInBytes a.DiskCacheDir), 1, false) := by
  unfold lookupOrFind
  cases env.Hash h with
  | error e => right; rfl
  | ok uid =>
    cases a.Cache with
    | none => left; rfl
    | some c =>
      simp only
      split
      · left; rfl
      · right; rfl

theorem lookupOrFind_onlyStrings (env : Env) (a : App) (h : HandleImgRequestBody)
    (response : Option HandleImgResponseBody) (c : Cache)
    (hc : a.Cache = some c) (hs : onlyStrings c = true) :
    lookupOrFind env a h response =
      (some (FindProminentColors env h a.MaxBodySizeInBytes a.DiskCacheDir), 1, false) := by
  unfold lookupOrFind
  cases hh : env.Hash h with
  | error e => rfl
  | ok uid =>
    simp only [hc]
    have := assertColorItems_of_onlyStrings c (cacheKey uid) hs
    simp [this]

/-- The run of the handler on a body that decodes, in terms of the lookup. -/
theorem handler_decoded (env : Env) (a : App) (body : Reader) (decoded : HandleImgRequestBody)
    (hdec : env.jsonDecode (LimitReader body a.MaxBodySizeInBytes) = .ok decoded) :
    ProminentColorsFinderHandler env a body =
      { w := (deferredWrite env (lookupOrFind env a (normalizeCount a decoded) none).1).1,
        cache := (deferredStore env a.Cache false (normalizeCount a decoded)
          (lookupOrFind env a (normalizeCount a decoded) none).1).1,
        sets := (deferredStore env a.Cache false (normalizeCount a decoded)
          (lookupOrFind env a (normalizeCount a decoded) none).1).2.1,
        findCalls := (lookupOrFind env a (normalizeCount a decoded) none).2.1,
        panicked := (lookupOrFind env a (normalizeCount a decoded) none).2.2 ||
          (deferredStore env a.Cache false (normalizeCount a decoded)
            (lookupOrFind env a (normalizeCount a decoded) none).1).2.2 ||
          (deferredWrite env (lookupOrFind env a (normalizeCount a decoded) none).1).2 } := by
  simp [ProminentColorsFinderHandler, hdec]

/-- The run of the handler on a body that does not decode. -/
theorem handler_not_decoded (env : Env) (a : App) (body : Reader) (err : GoError)
    (hdec : env.jsonDecode (LimitReader body a.MaxBodySizeInBytes) = .error err) :
    ProminentColorsFinderHandler env a body =
      { w := [], cache := a.Cache, sets := [], findCalls := 0, panicked := true } := by
  simp [ProminentColorsFinderHandler, hdec, assignError, deferredWrite, jsonMarshalPtr]

/-- C2 (the code departs from the claim): for every request body that fails to
decode, the handler ends in a runtime panic: the variable response is still a
nil pointer when line 99 assigns its Error field, and again when the deferred
writer reads that field. Nothing is written to the response writer (no status
500, no serialization_error body); the cache and FindProminentColors are not
reached. -/
theorem decode_failure_panics (env : Env) (a : App) (body : Reader) (err : GoError)
    (hdec : env.jsonDecode (LimitReader body a.MaxBodySizeInBytes) = .error err) :
    ProminentColorsFinderHandler env a body =
      { w := [], cache := a.Cache, sets := [], findCalls := 0, panicked := true } :=
  handler_not_decoded env a body err hdec

/-- C2, at a concrete request: a body of one opening brace. -/
theorem decode_failure_panics_witness :
    ProminentColorsFinderHandler sampleEnv sampleApp truncatedBody =
      { w := [], cache := some [], sets := [], findCalls := 0, panicked := true } :=
  decode_failure_panics sampleEnv sampleApp truncatedBody (.other "unexpected EOF") (by rfl)

/-- C5 (the code departs from the claim): with a configured maximum of at
least 1, a negative requested count is neither 0 nor above the maximum, so
lines 104-106 leave it unchanged: the effective count is negative, outside
the range from 1 to the maximum. -/
theorem negative_count_unchanged (a : App) (h : HandleImgRequestBody)
    (hmax : 1 ≤ a.MaxProminentColors) (hneg : h.ProminentColors < 0) :
    normalizeCount a h = h ∧ ¬ (1 ≤ (normalizeCount a h).ProminentColors) := by
  have h0 : ¬ h.ProminentColors = 0 := by omega
  have h1 : ¬ h.ProminentColors > a.MaxProminentColors := by omega
  have hn : normalizeCount a h = h := by simp [normalizeCount, h0, h1]
  rw [hn]
  exact ⟨rfl, by omega⟩

/-- C5, at a concrete request: a count of -1 with the maximum 5. -/
theorem negative_count_unchanged_witness :
    normalizeCount sampleApp { Type_ := "url", Value := "http://example/a.png", ProminentColors := -1 }
      = { Type_ := "url", Value := "http://example/a.png", ProminentColors := -1 } ∧
    ¬ (1 ≤ (normalizeCount sampleApp
      { Type_ := "url", Value := "http://example/a.png", ProminentColors := -1 }).ProminentColors) :=
  negative_count_unchanged sampleApp
    { Type_ := "url", Value := "http://example/a.png", ProminentColors := -1 }
    (by decide) (by decide)

/-- C6: the effective count after normalisation is the maximum when the
requested count is 0 or above the maximum and the requested count otherwise,
type and value are kept; a request with count 0 and one with count max, of the
same type and value, normalise to the same request and get the same
fingerprint and cache key. -/
theorem count_normalisation (env : Env) (a : App) (h : HandleImgRequestBody) :
    (normalizeCount a h).ProminentColors =
      (if h.ProminentColors = 0 ∨ h.ProminentColors > a.MaxProminentColors
        then a.MaxProminentColors else h.ProminentColors) ∧
    (normalizeCount a h).Type_ = h.Type_ ∧ (normalizeCount a h).Value = h.Value ∧
    normalizeCount a { h with ProminentColors := 0 } =
      normalizeCount a { h with ProminentColors := a.MaxProminentColors } ∧
    env.Hash (normalizeCount a { h with ProminentColors := 0 }) =
      env.Hash (normalizeCount a { h with ProminentColors := a.MaxProminentColors }) ∧
    lookupOrFind env a (normalizeCount a { h with ProminentColors := 0 }) none =
      lookupOrFind env a (normalizeCount a { h with ProminentColors := a.MaxProminentColors })
        none := by
  have heq : normalizeCount a { h with ProminentColors := 0 } =
      normalizeCount a { h with ProminentColors := a.MaxProminentColors } := by
    simp [normalizeCount]
  refine ⟨?_, ?_, ?_, heq, by rw [heq], by rw [heq]⟩
  · unfold normalizeCount
    split <;> rfl
  · unfold normalizeCount
    split <;> rfl
  · unfold normalizeCount
    split <;> rfl

/-- C7: every call of Cache.Set in a run of the handler comes from a request
that decoded, whose normalised form hashed without error to uid, and whose
response from FindProminentColors has no error and a non-empty colour list;
the call stores exactly that colour list under the key of uid, it is the only
call of the run, and the cache afterwards is the cache before with that
entry set. -/
theorem only_successes_cached (env : Env) (a : App) (body : Reader) (kv : String × CacheValue)
    (hkv : kv ∈ (ProminentColorsFinderHandler env a body).sets) :
    ∃ decoded uid,
      env.jsonDecode (LimitReader body a.MaxBodySizeInBytes) = .ok decoded ∧
      env.Hash (normalizeCount a decoded) = .ok uid ∧
      (FindProminentColors env (normalizeCount a decoded) a.MaxBodySizeInBytes
        a.DiskCacheDir).Error = none ∧
      (FindProminentColors env (normalizeCount a decoded) a.MaxBodySizeInBytes
        a.DiskCacheDir).ProminentColors ≠ [] ∧
      kv = (cacheKey uid, .strings (FindProminentColors env (normalizeCount a decoded)
        a.MaxBodySizeInBytes a.DiskCacheDir).ProminentColors) ∧
      (ProminentColorsFinderHandler env a body).sets = [kv] ∧
      (ProminentColorsFinderHandler env a body).cache =
        a.Cache.map (fun c => c.Set kv.1 kv.2) := by
  cases hdec : env.jsonDecode (LimitReader body a.MaxBodySizeInBytes) with
  | error err =>
    rw [handler_not_decoded env a body err hdec] at hkv
    simp at hkv
  | ok decoded =>
    rw [handler_decoded env a body decoded hdec] at hkv ⊢
    simp only at hkv ⊢
    rcases lookupOrFind_nil_response env a (normalizeCount a decoded) with hl | hl
    · rw [hl] at hkv
      simp only [deferredStore] at hkv
      cases hh : env.Hash (normalizeCount a decoded) <;> simp [hh] at hkv
    · rw [hl] at hkv ⊢
      simp only [deferredStore] at hkv ⊢
      cases hh : env.Hash (normalizeCount a decoded) with
      | error e => simp [hh] at hkv
      | ok uid =>
        simp only [hh, Bool.false_eq_true, if_false] at hkv ⊢
        by_cases hcond : (FindProminentColors env (normalizeCount a decoded) a.MaxBodySizeInBytes
            a.DiskCacheDir).Error = none ∧
            (FindProminentColors env (normalizeCount a decoded) a.MaxBodySizeInBytes
              a.DiskCacheDir).ProminentColors.length > 0
        · simp only [hcond, and_self, if_true] at hkv ⊢
          have hne : (FindProminentColors env (normalizeCount a decoded) a.MaxBodySizeInBytes
              a.DiskCacheDir).ProminentColors ≠ [] := by
            intro h0
            have := hcond.2
            rw [h0] at this
            simp at this
          cases hcache : a.Cache with
          | none =>
            simp only [hcache, List.mem_singleton] at hkv ⊢
            exact ⟨decoded, uid, rfl, hh, hcond.1, hne, hkv, by rw [hkv], rfl⟩
          | some c =>
            simp only [hcache, List.mem_singleton] at hkv ⊢
            exact ⟨decoded, uid, rfl, hh, hcond.1, hne, hkv, by rw [hkv], by rw [hkv]; rfl⟩
        · simp [hcond] at hkv

set_option maxRecDepth 100000 in
/-- C7, at a concrete request: the run on the sample body makes one call of
Cache.Set, with the colour list of its successful response. -/
theorem only_successes_cached_witness :
    ("3506", CacheValue.strings ["ff0000"]) ∈
      (ProminentColorsFinderHandler sampleEnv sampleApp sampleBody).sets ∧
    ∃ decoded uid,
      sampleEnv.jsonDecode (LimitReader sampleBody sampleApp.MaxBodySizeInBytes) = .ok decoded ∧
      sampleEnv.Hash (normalizeCount sampleApp decoded) = .ok uid ∧
      (FindProminentColors sampleEnv (normalizeCount sampleApp decoded)
        sampleApp.MaxBodySizeInBytes sampleApp.DiskCacheDir).Error = none ∧
      (FindProminentColors sampleEnv (normalizeCount sampleApp decoded)
        sampleApp.MaxBodySizeInBytes sampleApp.DiskCacheDir).ProminentColors ≠ [] ∧
      ("3506", CacheValue.strings ["ff0000"]) =
        (cacheKey uid, .strings (FindProminentColors sampleEnv (normalizeCount sampleApp decoded)
          sampleApp.MaxBodySizeInBytes sampleApp.DiskCacheDir).ProminentColors) ∧
      (ProminentColorsFinderHandler sampleEnv sampleApp sampleBody).sets =
        [("3506", CacheValue.strings ["ff0000"])] ∧
      (ProminentColorsFinderHandler sampleEnv sampleApp sampleBody).cache =
        sampleApp.Cache.map (fun c => c.Set "3506" (CacheValue.strings ["ff0000"])) :=
  have hmem : ("3506", CacheValue.strings ["ff0000"]) ∈
      (ProminentColorsFinderHandler sampleEnv sampleApp sampleBody).sets := by
    have hrun : (ProminentColorsFinderHandler sampleEnv sampleApp sampleBody).sets =
        [("3506", CacheValue.strings ["ff0000"])] := by rfl
    rw [hrun]
    exact List.mem_singleton.mpr rfl
  ⟨hmem, only_successes_cached sampleEnv sampleApp sampleBody
    ("3506", CacheValue.strings ["ff0000"]) hmem⟩

/-- C1 (the code departs from the claim): take a cache whose values are all
colour lists as the handler stores them, and a request that decodes, hashes
and succeeds with a non-empty colour list. The first call stores the colour
list, a []string, under the key of the request, and the entry is found under
that key. The second call with the identical request on the cache the first
one left still calls FindProminentColors once and calls Cache.Set again: the
lookup asserts a []prominentcolor.ColorItem, which a stored []string never
is, so the result is not served from the cache. What is written to the
client is the same as in the first call. -/
theorem second_call_recomputes (env : Env) (a : App) (body : Reader) (c : Cache)
    (decoded : HandleImgRequestBody) (uid : Nat)
    (hc : a.Cache = some c) (hs : onlyStrings c = true)
    (hdec : env.jsonDecode (LimitReader body a.MaxBodySizeInBytes) = .ok decoded)
    (hhash : env.Hash (normalizeCount a decoded) = .ok uid)
    (herr : (FindProminentColors env (normalizeCount a decoded) a.MaxBodySizeInBytes
      a.DiskCacheDir).Error = none)
    (hne : (FindProminentColors env (normalizeCount a decoded) a.MaxBodySizeInBytes
      a.DiskCacheDir).ProminentColors ≠ []) :
    (ProminentColorsFinderHandler env a body).findCalls = 1 ∧
    (ProminentColorsFinderHandler env a body).cache =
      some (c.Set (cacheKey uid) (.strings (FindProminentColors env (normalizeCount a decoded)
        a.MaxBodySizeInBytes a.DiskCacheDir).ProminentColors)) ∧
    (c.Set (cacheKey uid) (.strings (FindProminentColors env (normalizeCount a decoded)
        a.MaxBodySizeInBytes a.DiskCacheDir).ProminentColors)).Get (cacheKey uid) =
      some (.strings (FindProminentColors env (normalizeCount a decoded)
        a.MaxBodySizeInBytes a.DiskCacheDir).ProminentColors) ∧
    (ProminentColorsFinderHandler env
      { a with Cache := (ProminentColorsFinderHandler env a body).cache } body).findCalls = 1 ∧
    (ProminentColorsFinderHandler env
      { a with Cache := (ProminentColorsFinderHandler env a body).cache } body).sets =
        [(cacheKey uid, .strings (FindProminentColors env (normalizeCount a decoded)
          a.MaxBodySizeInBytes a.DiskCacheDir).ProminentColors)] ∧
    (ProminentColorsFinderHandler env
      { a with Cache := (ProminentColorsFinderHandler env a body).cache } body).w =
        (ProminentColorsFinderHandler env a body).w := by
  have hlen : (FindProminentColors env (normalizeCount a decoded) a.MaxBodySizeInBytes
      a.DiskCacheDir).ProminentColors.length > 0 := List.length_pos.mpr hne
  have hfirst : (ProminentColorsFinderHandler env a body).cache =
      some (c.Set (cacheKey uid) (.strings (FindProminentColors env (normalizeCount a decoded)
        a.MaxBodySizeInBytes a.DiskCacheDir).ProminentColors)) := by
    rw [handler_decoded env a body decoded hdec]
    simp [lookupOrFind_onlyStrings env a _ none c hc hs, deferredStore, hhash, herr, hlen, hc]
  have hdec2 : env.jsonDecode (LimitReader body
      ({ a with Cache := some (c.Set (cacheKey uid)
        (.strings (FindProminentColors env (normalizeCount a decoded)
          a.MaxBodySizeInBytes a.DiskCacheDir).ProminentColors)) } : App).MaxBodySizeInBytes) =
      .ok decoded := hdec
  have hsecond := lookupOrFind_onlyStrings env
    { a with Cache := some (c.Set (cacheKey uid)
        (.strings (FindProminentColors env (normalizeCount a decoded)
          a.MaxBodySizeInBytes a.DiskCacheDir).ProminentColors)) }
    (normalizeCount a decoded) none _ rfl (onlyStrings_Set c (cacheKey uid) _ hs)
  have hn : normalizeCount { a with Cache := some (c.Set (cacheKey uid)
      (.strings (FindProminentColors env (normalizeCount a decoded)
        a.MaxBodySizeInBytes a.DiskCacheDir).ProminentColors)) } decoded
      = normalizeCount a decoded := rfl
  refine ⟨?_, hfirst, Cache.Get_Set _ _ _, ?_, ?_, ?_⟩
  · rw [handler_decoded env a body decoded hdec]
    simp [lookupOrFind_onlyStrings env a _ none c hc hs]
  · rw [hfirst, handler_decoded env _ body decoded hdec2]
    simp only [hn, hsecond]
  · rw [hfirst, handler_decoded env _ body decoded hdec2]
    simp only [hn, hsecond]
    simp [deferredStore, hhash, herr, hlen]
  · rw [hfirst, handler_decoded env _ body decoded hdec2, handler_decoded env a body decoded hdec]
    simp only [hn, hsecond, lookupOrFind_onlyStrings env a _ none c hc hs]

set_option maxRecDepth 100000 in
/-- C1, at a concrete request: the sample body sent twice to the application
with an empty cache; the second call computes again. -/
theorem second_call_recomputes_witness :
    (ProminentColorsFinderHandler sampleEnv sampleApp sampleBody).findCalls = 1 ∧
    (ProminentColorsFinderHandler sampleEnv sampleApp sampleBody).cache =
      some [("3506", CacheValue.strings ["ff0000"])] ∧
    Cache.Get [("3506", CacheValue.strings ["ff0000"])] "3506" =
      some (CacheValue.strings ["ff0000"]) ∧
    (ProminentColorsFinderHandler sampleEnv
      { sampleApp with
        Cache := (ProminentColorsFinderHandler sampleEnv sampleApp sampleBody).cache }
      sampleBody).findCalls = 1 ∧
    (ProminentColorsFinderHandler sampleEnv
      { sampleApp with
        Cache := (ProminentColorsFinderHandler sampleEnv sampleApp sampleBody).cache }
      sampleBody).sets = [("3506", CacheValue.strings ["ff0000"])] ∧
    (ProminentColorsFinderHandler sampleEnv
      { sampleApp with
        Cache := (ProminentColorsFinderHandler sampleEnv sampleApp sampleBody).cache }
      sampleBody).w = (ProminentColorsFinderHandler sampleEnv sampleApp sampleBody).w :=
  second_call_recomputes sampleEnv sampleApp sampleBody [] sampleRequest 3506
    (by rfl) (by rfl) (by rfl) (by rfl) (by rfl) (by decide)

/-- C8 (the code departs from the claim): with a nil Cache, as in
TestProminentColorsFinderHandler, every request that decodes and hashes ends
in a runtime panic at the call a.Cache.Get of line 125; the deferred store and
the deferred writer then find response still nil. No status is written,
neither 200 nor 500, and FindProminentColors is not called. -/
theorem nil_cache_panics (env : Env) (a : App) (body : Reader)
    (decoded : HandleImgRequestBody) (uid : Nat)
    (hnil : a.Cache = none)
    (hdec : env.jsonDecode (LimitReader body a.MaxBodySizeInBytes) = .ok decoded)
    (hhash : env.Hash (normalizeCount a decoded) = .ok uid) :
    ProminentColorsFinderHandler env a body =
      { w := [], cache := none, sets := [], findCalls := 0, panicked := true } := by
  rw [handler_decoded env a body decoded hdec]
  simp [lookupOrFind, hhash, hnil, deferredStore, deferredWrite, jsonMarshalPtr]

/-- C8, at the configuration of the test: MaxBodySizeInBytes = 1 shl 20,
MaxProminentColors = 5, Cache = nil, and a request for a valid image. -/
theorem nil_cache_panics_witness :
    ProminentColorsFinderHandler sampleEnv testApp sampleBody =
      { w := [], cache := none, sets := [], findCalls := 0, panicked := true } :=
  nil_cache_panics sampleEnv testApp sampleBody sampleRequest 3506 (by rfl) (by rfl) (by rfl)

/-- The part of C8 that holds: with a cache that is not nil and holds only
values the handler stores, a request that decodes gets status 200 when the
response of FindProminentColors has no error and status 500 when it has one,
and in both cases the serialised response is written once, after one call of
FindProminentColors and without panic. -/
theorem status_follows_error (env : Env) (a : App) (body : Reader) (c : Cache)
    (decoded : HandleImgRequestBody) (responseBytes : String)
    (hc : a.Cache = some c) (hs : onlyStrings c = true)
    (hdec : env.jsonDecode (LimitReader body a.MaxBodySizeInBytes) = .ok decoded)
    (hmar : env.jsonMarshal (FindProminentColors env (normalizeCount a decoded)
      a.MaxBodySizeInBytes a.DiskCacheDir) = .ok responseBytes) :
    (ProminentColorsFinderHandler env a body).w =
      (if (FindProminentColors env (normalizeCount a decoded) a.MaxBodySizeInBytes
          a.DiskCacheDir).Error = none then
        [.HeaderSet "Access-Control-Allow-Origin" "*",
         .HeaderSet "Content-Type" "application/json",
         .WriteHeader StatusOK, .Write responseBytes]
      else [.WriteHeader StatusInternalServerError, .Write responseBytes]) ∧
    (ProminentColorsFinderHandler env a body).findCalls = 1 ∧
    (ProminentColorsFinderHandler env a body).panicked = false := by
  rw [handler_decoded env a body decoded hdec]
  simp only [lookupOrFind_onlyStrings env a _ none c hc hs]
  have hw : (deferredWrite env (some (FindProminentColors env (normalizeCount a decoded)
      a.MaxBodySizeInBytes a.DiskCacheDir))).2 = false := by
    simp only [deferredWrite, jsonMarshalPtr, hmar]
    split <;> rfl
  have hst : (deferredStore env a.Cache false (normalizeCount a decoded)
      (some (FindProminentColors env (normalizeCount a decoded)
        a.MaxBodySizeInBytes a.DiskCacheDir))).2.2 = false := by
    simp only [deferredStore, hc]
    cases env.Hash (normalizeCount a decoded) with
    | error e => rfl
    | ok uid =>
      simp only [Bool.false_eq_true, if_false]
      split <;> rfl
  refine ⟨?_, trivial, ?_⟩
  · simp only [deferredWrite, jsonMarshalPtr, hmar]
    by_cases he : (FindProminentColors env (normalizeCount a decoded) a.MaxBodySizeInBytes
        a.DiskCacheDir).Error = none
    · simp [he]
    · simp [he]
  · simp [hw, hst]

end Colors
